import Mathlib

/-!
Shallow embedding of nais/teamconfig (src/main.go).

The tool reconciles one Kubernetes service account per (team, cluster)
pair and assembles a merged kubeconfig.  All external effects are calls
to the Kubernetes API; we model each cluster control plane as an explicit
state value and each API call used by the program (get / create / delete
of a service account, get of a secret) as a function on that state,
following the semantics the program relies on.  Injected fault fields
model the control plane failing an operation for reasons other than
not-found / already-exists (network, authorization, ...).
-/

namespace Teamconfig

/-- Error classes of the Kubernetes API distinguished by the program
(`errors.IsNotFound`, `errors.IsAlreadyExists`); everything else is
collapsed into `other`. -/
inductive KError where
  | notFound : KError
  | alreadyExists : KError
  | other : String → KError
deriving DecidableEq, Repr

/-- Model of `errors.IsNotFound`. -/
def isNotFound : KError → Bool
  | .notFound => true
  | _ => false

/-- Model of `errors.IsAlreadyExists`. -/
def isAlreadyExists : KError → Bool
  | .alreadyExists => true
  | _ => false

/-- A service account as the program uses it: a name and the list of
secret references (`serviceAccount.Secrets`, by secret name). -/
structure SA where
  name : String
  secrets : List String
deriving DecidableEq, Repr

/-- A Kubernetes secret: a name and a string-keyed data map
(`secret.Data`), as an association list. -/
structure KSecret where
  name : String
  data : List (String × String)
deriving DecidableEq, Repr

/-- State of one cluster control plane, as far as the program observes
it: the service accounts and secrets of the `default` namespace, a
counter used to mint fresh token secrets, the API server address
(`clientConfig.Host`), and injected faults: `clientFault` makes client
resolution (`buildConfigFromFlags` / `KubeClient`) fail, `deleteFault`
and `createFault` make the corresponding API call fail with an error
that is neither not-found nor already-exists. -/
structure ClusterState where
  accounts : List SA
  secrets : List KSecret
  nextToken : Nat
  host : String
  clientFault : Option String
  deleteFault : Option String
  createFault : Option String
deriving DecidableEq, Repr

/-- Look up a service account by name. -/
def findSA (st : ClusterState) (name : String) : Option SA :=
  st.accounts.find? (fun sa => sa.name == name)

/-- Look up a secret by name. -/
def findSecret (st : ClusterState) (name : String) : Option KSecret :=
  st.secrets.find? (fun s => s.name == name)

/-- `ServiceAccounts(Namespace).Get`: not-found when absent. -/
def apiGetSA (st : ClusterState) (name : String) : Except KError SA :=
  match findSA st name with
  | some sa => .ok sa
  | none => .error .notFound

/-- `ServiceAccounts(Namespace).Delete`: removes the account and its
referenced token secrets when present, not-found when absent;
`deleteFault` injects any other API failure. -/
def apiDeleteSA (st : ClusterState) (name : String) : Except KError ClusterState :=
  match st.deleteFault with
  | some m => .error (.other m)
  | none =>
    match findSA st name with
    | some sa =>
        .ok { st with
          accounts := st.accounts.filter (fun a => a.name != name),
          secrets := st.secrets.filter (fun s => !(sa.secrets.contains s.name)) }
    | none => .error .notFound

/-- Name of the token secret the control plane mints for a freshly
created service account. -/
def mintedSecretName (name : String) (n : Nat) : String :=
  name ++ "-token-" ++ toString n

/-- Value of the freshly minted bearer token. -/
def mintedTokenValue (n : Nat) : String :=
  "token-" ++ toString n

/-- The cluster state after a successful creation: the new account is
present, referencing the token secret the control plane mints for it;
the mint counter advances. -/
def createdState (st : ClusterState) (name : String) : ClusterState :=
  let sname := mintedSecretName name st.nextToken
  { st with
    accounts := { name := name, secrets := [sname] } :: st.accounts,
    secrets := { name := sname, data := [("token", mintedTokenValue st.nextToken)] }
      :: st.secrets.filter (fun s => s.name != sname),
    nextToken := st.nextToken + 1 }

/-- `ServiceAccounts(Namespace).Create`: already-exists when present;
`createFault` injects any other API failure.  On success the control
plane asynchronously mints a token secret and attaches it to the new
account; the program waits a fixed delay (`time.Sleep`) before reading
it back, so the post-delay view — account present with its minted
secret — is folded into the successful creation step. -/
def apiCreateSA (st : ClusterState) (name : String) : Except KError ClusterState :=
  match st.createFault with
  | some m => .error (.other m)
  | none =>
    match findSA st name with
    | some _ => .error .alreadyExists
    | none => .ok (createdState st name)

/-- `Secrets(Namespace).Get`: not-found when absent. -/
def apiGetSecret (st : ClusterState) (name : String) : Except KError KSecret :=
  match findSecret st name with
  | some s => .ok s
  | none => .error .notFound

/-- `ServiceAccountSecret` (main.go:89-96): fail when the account has no
secret reference, otherwise fetch the first reference by name. -/
def ServiceAccountSecret (st : ClusterState) (serviceAccount : SA) : Except KError KSecret :=
  match serviceAccount.secrets with
  | [] => .error (.other ("no secret associated with service account " ++ serviceAccount.name))
  | secretRef :: _ => apiGetSecret st secretRef

/-- The program configuration (main.go:26-33), populated from flags. -/
structure Config where
  Clusters : List String
  Debug : Bool
  Create : Bool
  Revoke : Bool
  Rotate : Bool
  Team : String
deriving DecidableEq, Repr

/-- `DefaultConfig` (main.go:35-39). -/
def DefaultConfig : Config :=
  { Clusters := ["dev-fss", "dev-sbs", "prod-fss", "prod-sbs"],
    Debug := false, Create := false, Revoke := false, Rotate := false, Team := "" }

/-- `ServiceAccountName` (main.go:64-66): `serviceuser-<team>`. -/
def ServiceAccountName (team : String) : String :=
  "serviceuser-" ++ team

/-- `clientcmdapi.AuthInfo` as used: only the bearer token. -/
structure AuthInfo where
  token : String
deriving DecidableEq, Repr

/-- `AuthInfo` (main.go:98-102): `string(secret.Data["token"])`; a Go
map read of a missing key yields the zero value, hence the empty
string. -/
def mkAuthInfo (secret : KSecret) : AuthInfo :=
  { token := (secret.data.lookup "token").getD "" }

/-- `clientcmdapi.Cluster` as used: only the server address. -/
structure ClusterEntry where
  server : String
deriving DecidableEq, Repr

/-- `clientcmdapi.Context` as used. -/
structure KContext where
  Namespace : String
  AuthInfo : String
  Cluster : String
deriving DecidableEq, Repr

/-- The accumulating merged credential file (`clientcmdapi.Config`):
maps keyed by cluster name, plus the current-context field. -/
structure UserConfig where
  AuthInfos : List (String × AuthInfo)
  Clusters : List (String × ClusterEntry)
  Contexts : List (String × KContext)
  CurrentContext : String
deriving DecidableEq, Repr

/-- `clientcmdapi.NewConfig()`: empty maps, empty current context. -/
def NewConfig : UserConfig :=
  { AuthInfos := [], Clusters := [], Contexts := [], CurrentContext := "" }

/-- Go map assignment `m[k] = v`: overwrite any previous binding. -/
def mapSet {α : Type} (m : List (String × α)) (k : String) (v : α) :
    List (String × α) :=
  (k, v) :: m.filter (fun p => p.1 != k)

/-- Errors `clusterExec` can return, one constructor per return site
(client resolution, and the four wrapped API error messages). -/
inductive ExecErr where
  | clientErr : String → ExecErr
  | deleteErr : KError → ExecErr
  | createErr : KError → ExecErr
  | getErr : KError → ExecErr
  | secretErr : KError → ExecErr
deriving DecidableEq, Repr

/-- The credential-aggregate update of main.go:169-177: one auth info,
one cluster entry (server address) and one context, all keyed by the
cluster name. -/
def recordEntries (cluster : String) (st : ClusterState) (authInfo : AuthInfo)
    (userConfig : UserConfig) : UserConfig :=
  { userConfig with
    AuthInfos := mapSet userConfig.AuthInfos cluster authInfo,
    Clusters := mapSet userConfig.Clusters cluster { server := st.host },
    Contexts := mapSet userConfig.Contexts cluster
      { Namespace := "default", AuthInfo := cluster, Cluster := cluster } }

/-- main.go:155-179: fetch the service account, then its first secret,
build the auth info and record the three aggregate entries.  Returns the
outcome together with the (unchanged) cluster state and the possibly
updated aggregate, mirroring that Go mutates `userConfig` in place. -/
def fetchAndRecord (config : Config) (cluster : String) (st : ClusterState)
    (userConfig : UserConfig) : Except ExecErr Unit × ClusterState × UserConfig :=
  match apiGetSA st (ServiceAccountName config.Team) with
  | .error e => (.error (.getErr e), st, userConfig)
  | .ok serviceAccount =>
    match ServiceAccountSecret st serviceAccount with
    | .error e => (.error (.secretErr e), st, userConfig)
    | .ok secret =>
      (.ok (), st, recordEntries cluster st (mkAuthInfo secret) userConfig)

/-- main.go:136-153: the creation phase.  Runs only in Rotate or Create
mode; already-exists is tolerated; any other creation error is fatal;
afterwards (including the tolerated case) execution proceeds to the
fetch phase.  The `deleted` flag from the deletion phase only affects
logging in the source and is therefore unused here. -/
def createPhase (config : Config) (cluster : String) (deleted : Bool)
    (st : ClusterState) (userConfig : UserConfig) :
    Except ExecErr Unit × ClusterState × UserConfig :=
  if config.Rotate || config.Create then
    match apiCreateSA st (ServiceAccountName config.Team) with
    | .error e =>
      if isAlreadyExists e then fetchAndRecord config cluster st userConfig
      else (.error (.createErr e), st, userConfig)
    | .ok st1 => fetchAndRecord config cluster st1 userConfig
  else fetchAndRecord config cluster st userConfig

/-- `clusterExec` (main.go:104-180).  Client resolution first; then, in
Rotate or Revoke mode, the deletion phase: on successful deletion Revoke
mode returns at once, otherwise the flow continues with `deleted = true`;
a deletion error that is not-found with Create unset is tolerated
(logged only), any other deletion error is fatal.  Then the creation
phase and the fetch-and-record phase. -/
def clusterExec (config : Config) (cluster : String) (st : ClusterState)
    (userConfig : UserConfig) : Except ExecErr Unit × ClusterState × UserConfig :=
  match st.clientFault with
  | some m => (.error (.clientErr m), st, userConfig)
  | none =>
    if config.Rotate || config.Revoke then
      match apiDeleteSA st (ServiceAccountName config.Team) with
      | .ok st1 =>
        if config.Revoke then (.ok (), st1, userConfig)
        else createPhase config cluster true st1 userConfig
      | .error e =>
        if isNotFound e && !config.Create then
          createPhase config cluster false st userConfig
        else (.error (.deleteErr e), st, userConfig)
    else createPhase config cluster false st userConfig

/-- Outcome of one `clusterExec` call. -/
def isOk {ε α : Type} : Except ε α → Bool
  | .ok _ => true
  | .error _ => false

/-- The multi-cluster environment: cluster name to control-plane state.
A name not in the list denotes an empty, fault-free cluster. -/
abbrev Env := List (String × ClusterState)

/-- The state an unlisted cluster name denotes. -/
def defaultClusterState : ClusterState :=
  { accounts := [], secrets := [], nextToken := 0, host := "",
    clientFault := none, deleteFault := none, createFault := none }

def envGet (env : Env) (c : String) : ClusterState :=
  (env.lookup c).getD defaultClusterState

def envSet (env : Env) (c : String) (st : ClusterState) : Env :=
  mapSet env c st

/-- Result of the per-cluster loop of `run` (main.go:206-217): the final
environment, the accumulated aggregate, the `failed` flag, and the trace
of attempted clusters with their outcome (one entry per list position,
in order — the loop never breaks early). -/
structure LoopResult where
  env : Env
  userConfig : UserConfig
  failed : Bool
  attempts : List (String × Bool)
deriving DecidableEq, Repr

/-- The cluster loop of `run` (main.go:206-217): every configured
cluster is processed in order; an error is logged and sets `failed`,
but never stops the loop. -/
def runLoop (config : Config) : List String → Env → UserConfig → Bool → LoopResult
  | [], env, userConfig, failed =>
    { env := env, userConfig := userConfig, failed := failed, attempts := [] }
  | cluster :: rest, env, userConfig, failed =>
    let r := clusterExec config cluster (envGet env cluster) userConfig
    let ok := isOk r.1
    let res := runLoop config rest (envSet env cluster r.2.1) r.2.2 (failed || !ok)
    { res with attempts := (cluster, ok) :: res.attempts }

/-- Errors `run` can return, plus `indexOutOfBounds` standing for the Go
runtime panic at `config.Clusters[0]` (main.go:228) when the cluster
list is empty: the operation is not total there. -/
inductive RunErr where
  | noTeam : RunErr
  | mutuallyExclusive : RunErr
  | clusterFailures : RunErr
  | indexOutOfBounds : RunErr
deriving DecidableEq, Repr

/-- `run` (main.go:182-245), from the validation checks onward (flag
parsing and logger setup are out of scope).  Returns `some userConfig`
when the serialized credential file is written to standard output, and
`none` on a successful Revoke run, which writes nothing. -/
def run (config : Config) (env : Env) : Except RunErr (Option UserConfig) :=
  if config.Team.length == 0 then .error .noTeam
  else if config.Revoke && (config.Create || config.Rotate) then .error .mutuallyExclusive
  else
    let res := runLoop config config.Clusters env NewConfig false
    if res.failed then .error .clusterFailures
    else if config.Revoke then .ok none
    else
      match config.Clusters.get? 0 with
      | none => .error .indexOutOfBounds
      | some first => .ok (some { res.userConfig with CurrentContext := first })

/-- `main` (main.go:247-253): exit status 1 on any error, 0 otherwise. -/
def mainExit (config : Config) (env : Env) : Nat :=
  match run config env with
  | .ok _ => 0
  | .error _ => 1

/-! Concrete fixtures used for witnesses and counterexamples. -/

/-- A cluster already holding the identity of team `t`, with its token
secret. -/
def presentSt : ClusterState :=
  { accounts := [{ name := "serviceuser-t", secrets := ["serviceuser-t-token-xyz"] }],
    secrets := [{ name := "serviceuser-t-token-xyz", data := [("token", "tok-abc")] }],
    nextToken := 5, host := "https://api.a.example", clientFault := none,
    deleteFault := none, createFault := none }

/-- A cluster where the identity of team `t` is absent. -/
def absentSt : ClusterState :=
  { accounts := [], secrets := [], nextToken := 0, host := "https://api.a.example",
    clientFault := none, deleteFault := none, createFault := none }

/-- A cluster whose control plane fails deletions with a non-not-found
error. -/
def deleteFaultSt : ClusterState :=
  { presentSt with deleteFault := some "connection refused" }

/-- A cluster whose identity has a secret that lacks the token field. -/
def tokenlessSt : ClusterState :=
  { accounts := [{ name := "serviceuser-t", secrets := ["serviceuser-t-token-xyz"] }],
    secrets := [{ name := "serviceuser-t-token-xyz", data := [("ca.crt", "pem")] }],
    nextToken := 5, host := "https://api.a.example", clientFault := none,
    deleteFault := none, createFault := none }

/-- Read-mode configuration for team `t` on one cluster `a`. -/
def readCfg : Config :=
  { Clusters := ["a"], Debug := false, Create := false, Revoke := false,
    Rotate := false, Team := "t" }

/-- Revoke-mode configuration for team `t` on one cluster `a`. -/
def revokeCfg : Config :=
  { readCfg with Revoke := true }

/-- Rotate-mode configuration (without Create) for team `t`. -/
def rotateCfg : Config :=
  { readCfg with Rotate := true }

/-- Rotate combined with Create for team `t`. -/
def rotateCreateCfg : Config :=
  { readCfg with Rotate := true, Create := true }

/-- Create-mode configuration for team `t`. -/
def createCfg : Config :=
  { readCfg with Create := true }

/-- Read-mode configuration over two clusters `a`, `b`. -/
def twoClusterCfg : Config :=
  { readCfg with Clusters := ["a", "b"] }

/-- Environment where cluster `a` holds the identity and `b` does not. -/
def mixedEnv : Env :=
  [("a", presentSt), ("b", absentSt)]

/-- Environment of the single healthy cluster `a`. -/
def goodEnv : Env :=
  [("a", presentSt)]

/-- Rotate-mode configuration whose cluster list names `a` twice. -/
def dupCfg : Config :=
  { readCfg with Rotate := true, Clusters := ["a", "a"] }

/-- Read-mode configuration with an empty cluster list. -/
def emptyClustersCfg : Config :=
  { readCfg with Clusters := [] }

/-- The credential file a read-mode run over `goodEnv` emits. -/
def ucGood : UserConfig :=
  { AuthInfos := [("a", { token := "tok-abc" })],
    Clusters := [("a", { server := "https://api.a.example" })],
    Contexts := [("a", { Namespace := "default", AuthInfo := "a", Cluster := "a" })],
    CurrentContext := "a" }

/-- The credential file the duplicated-cluster rotate run emits: one
entry for `a`, holding the token minted by the second occurrence. -/
def ucDup : UserConfig :=
  { AuthInfos := [("a", { token := "token-6" })],
    Clusters := [("a", { server := "https://api.a.example" })],
    Contexts := [("a", { Namespace := "default", AuthInfo := "a", Cluster := "a" })],
    CurrentContext := "a" }

/-! Theorems. -/

/-- Claim C1 (evidence of the code bug): in Revoke mode, when the
deletion itself succeeds the per-cluster reconciliation returns success
and stops before the fetch step; but when the identity is already
absent, the reconciliation does not short-circuit: it falls through to
the service-account fetch and fails with not-found, instead of
succeeding as it does on a successful deletion. -/
theorem revoke_absent_does_not_short_circuit :
    (clusterExec revokeCfg "a" presentSt NewConfig).1 = .ok ()
    ∧ (clusterExec revokeCfg "a" absentSt NewConfig).1 = .error (.getErr .notFound) :=
  ⟨rfl, rfl⟩

/-- Claim C2 (evidence of the code bug): a not-found error from the
deletion step is tolerated in Rotate mode without Create (the cluster
still succeeds), and a deletion error other than not-found is fatal;
but in Rotate combined with Create, the not-found deletion error is
itself fatal for the cluster, contrary to the claim. -/
theorem deletion_notFound_fatal_with_create :
    (clusterExec rotateCreateCfg "a" absentSt NewConfig).1 = .error (.deleteErr .notFound)
    ∧ (clusterExec rotateCfg "a" absentSt NewConfig).1 = .ok ()
    ∧ (clusterExec rotateCfg "a" deleteFaultSt NewConfig).1
        = .error (.deleteErr (.other "connection refused")) :=
  ⟨rfl, rfl, rfl⟩

/-- The per-cluster loop attempts every configured cluster in order,
whatever the outcomes: the attempt trace lists exactly the configured
clusters. -/
theorem runLoop_attempts (config : Config) :
    ∀ (clusters : List String) (env : Env) (userConfig : UserConfig) (failed : Bool),
      (runLoop config clusters env userConfig failed).attempts.map Prod.fst = clusters := by
  intro clusters
  induction clusters with
  | nil => intro env userConfig failed; rfl
  | cons c rest ih => intro env userConfig failed; simp [runLoop, ih]

/-- Claim C3: a single cluster's failure does not stop processing of
the remaining clusters — the loop attempts every configured cluster —
and if at least one cluster failed, `run` returns the cluster-failures
error (so no credential file is emitted) and the process exits
nonzero. -/
theorem cluster_failure_isolation (config : Config) (env : Env)
    (hteam : (config.Team.length == 0) = false)
    (hmx : (config.Revoke && (config.Create || config.Rotate)) = false)
    (hfail : (runLoop config config.Clusters env NewConfig false).failed = true) :
    (runLoop config config.Clusters env NewConfig false).attempts.map Prod.fst
        = config.Clusters
    ∧ run config env = .error .clusterFailures
    ∧ mainExit config env = 1 := by
  refine ⟨runLoop_attempts config _ _ _ _, ?_, ?_⟩
  · simp [run, hteam, hmx, hfail]
  · simp [mainExit, run, hteam, hmx, hfail]

/-- Witness for C3: two configured clusters where the identity exists
only on the first; both clusters are attempted, the run fails overall
and exits 1. -/
theorem cluster_failure_isolation_witness :
    (runLoop twoClusterCfg twoClusterCfg.Clusters mixedEnv NewConfig false).attempts.map Prod.fst
        = twoClusterCfg.Clusters
    ∧ run twoClusterCfg mixedEnv = .error .clusterFailures
    ∧ mainExit twoClusterCfg mixedEnv = 1 :=
  cluster_failure_isolation twoClusterCfg mixedEnv rfl rfl rfl

/-- Claim C8: with an empty configured cluster list, a non-empty team
and non-revoke mode, `run` reaches the current-context assignment and
indexes position 0 of the empty list — the out-of-bounds access
modelled by `indexOutOfBounds`, standing for the Go runtime panic. -/
theorem empty_clusters_out_of_bounds (config : Config) (env : Env)
    (hclusters : config.Clusters = [])
    (hteam : (config.Team.length == 0) = false)
    (hrev : config.Revoke = false) :
    run config env = .error .indexOutOfBounds ∧ config.Clusters.get? 0 = none := by
  constructor
  · simp [run, hteam, hrev, hclusters, runLoop]
  · simp [hclusters]

/-- Witness for C8: the concrete empty-cluster read-mode invocation. -/
theorem empty_clusters_out_of_bounds_witness :
    run emptyClustersCfg goodEnv = .error .indexOutOfBounds
    ∧ emptyClustersCfg.Clusters.get? 0 = none :=
  empty_clusters_out_of_bounds emptyClustersCfg goodEnv rfl rfl rfl

/-- Claim C4: whenever `run` emits a merged credential file, its
current-context field equals the first cluster name of the configured
list, whatever the mode and cluster list. -/
theorem current_context_is_first_cluster (config : Config) (env : Env)
    (userConfig : UserConfig) (h : run config env = .ok (some userConfig)) :
    config.Clusters.get? 0 = some userConfig.CurrentContext := by
  unfold run at h
  by_cases h1 : (config.Team.length == 0) = true
  · rw [if_pos h1] at h; exact absurd h (by simp)
  · rw [if_neg h1] at h
    by_cases h2 : (config.Revoke && (config.Create || config.Rotate)) = true
    · rw [if_pos h2] at h; exact absurd h (by simp)
    · rw [if_neg h2] at h
      simp only [] at h
      by_cases h3 : (runLoop config config.Clusters env NewConfig false).failed = true
      · rw [if_pos h3] at h; exact absurd h (by simp)
      · rw [if_neg h3] at h
        by_cases h4 : config.Revoke = true
        · rw [if_pos h4] at h; exact absurd h (by simp)
        · rw [if_neg h4] at h
          rcases hg : config.Clusters.get? 0 with _ | first
          · rw [hg] at h; exact absurd h (by simp)
          · rw [hg] at h
            simp only [Except.ok.injEq, Option.some.injEq] at h
            rw [← h]

/-- Witness for C4: the healthy single-cluster read-mode run emits
`ucGood`, whose current context is the first configured cluster. -/
theorem current_context_is_first_cluster_witness :
    readCfg.Clusters.get? 0 = some ucGood.CurrentContext :=
  current_context_is_first_cluster readCfg goodEnv ucGood rfl

/-- Claim C7: the secret-reference step fails with the no-secret error
exactly when the identity has zero secret references, and with one or
more references it fetches precisely the first reference of the list. -/
theorem first_secret_reference_wins (st : ClusterState) (sa : SA) :
    (sa.secrets = [] →
      ServiceAccountSecret st sa
        = .error (.other ("no secret associated with service account " ++ sa.name)))
    ∧ ∀ r rest, sa.secrets = r :: rest →
        ServiceAccountSecret st sa = apiGetSecret st r := by
  constructor
  · intro h; simp [ServiceAccountSecret, h]
  · intro r rest h; simp [ServiceAccountSecret, h]

/-- Witness for C7: an identity with no references fails with the
no-secret error; one with two references fetches the first. -/
theorem first_secret_reference_wins_witness :
    ServiceAccountSecret presentSt { name := "serviceuser-t", secrets := [] }
      = .error (.other "no secret associated with service account serviceuser-t")
    ∧ ServiceAccountSecret presentSt
        { name := "serviceuser-t", secrets := ["s1", "s2"] }
      = apiGetSecret presentSt "s1" :=
  ⟨(first_secret_reference_wins presentSt
      { name := "serviceuser-t", secrets := [] }).1 rfl,
   (first_secret_reference_wins presentSt
      { name := "serviceuser-t", secrets := ["s1", "s2"] }).2 "s1" ["s2"] rfl⟩

/-- The fetch-and-record phase either leaves the aggregate untouched or
succeeds. -/
theorem fetchAndRecord_cases (config : Config) (cluster : String)
    (st : ClusterState) (userConfig : UserConfig) :
    (fetchAndRecord config cluster st userConfig).2.2 = userConfig
    ∨ isOk (fetchAndRecord config cluster st userConfig).1 = true := by
  unfold fetchAndRecord
  split
  · left; rfl
  · split
    · left; rfl
    · right; rfl

/-- The creation phase either leaves the aggregate untouched or
succeeds. -/
theorem createPhase_cases (config : Config) (cluster : String) (deleted : Bool)
    (st : ClusterState) (userConfig : UserConfig) :
    (createPhase config cluster deleted st userConfig).2.2 = userConfig
    ∨ isOk (createPhase config cluster deleted st userConfig).1 = true := by
  unfold createPhase
  split
  · split
    · split
      · exact fetchAndRecord_cases config cluster _ userConfig
      · left; rfl
    · exact fetchAndRecord_cases config cluster _ userConfig
  · exact fetchAndRecord_cases config cluster st userConfig

/-- Per-cluster reconciliation either leaves the aggregate untouched or
succeeds. -/
theorem clusterExec_cases (config : Config) (cluster : String)
    (st : ClusterState) (userConfig : UserConfig) :
    (clusterExec config cluster st userConfig).2.2 = userConfig
    ∨ isOk (clusterExec config cluster st userConfig).1 = true := by
  unfold clusterExec
  split
  · left; rfl
  · split
    · split
      · split
        · right; rfl
        · exact createPhase_cases config cluster _ _ userConfig
      · split
        · exact createPhase_cases config cluster _ _ userConfig
        · left; rfl
    · exact createPhase_cases config cluster _ _ userConfig

/-- A not-found outcome of the deletion call means the account is
absent (an injected fault is never classified as not-found). -/
theorem apiDeleteSA_notFound_absent (st : ClusterState) (name : String)
    (h : apiDeleteSA st name = .error .notFound) : findSA st name = none := by
  unfold apiDeleteSA at h
  split at h
  · simp at h
  · split at h
    · simp at h
    · assumption

/-- A deletion error classified not-found is the `notFound` value. -/
theorem isNotFound_eq (e : KError) (h : isNotFound e = true) : e = .notFound := by
  cases e <;> simp [isNotFound] at h ⊢

/-- Claim C9: the aggregate is written only after every fallible step
of the cluster succeeded — whenever `clusterExec` fails, the aggregate
it returns is exactly the one it was given — and Revoke-mode processing
(with Create and Rotate unset, as `run` validates) never touches the
aggregate, successful or not. -/
theorem aggregate_atomicity (config : Config) (cluster : String) (st : ClusterState)
    (userConfig : UserConfig) :
    (isOk (clusterExec config cluster st userConfig).1 = false →
      (clusterExec config cluster st userConfig).2.2 = userConfig)
    ∧ (config.Revoke = true → config.Create = false → config.Rotate = false →
      (clusterExec config cluster st userConfig).2.2 = userConfig) := by
  constructor
  · intro h
    rcases clusterExec_cases config cluster st userConfig with hc | hc
    · exact hc
    · rw [hc] at h
      exact absurd h (by simp)
  · intro hV hC hR
    unfold clusterExec
    split
    · rfl
    · rw [hR, hV]
      simp only [Bool.false_or, if_true]
      split
      · rfl
      · rename_i e heq
        by_cases hnf : isNotFound e = true
        · have he := isNotFound_eq e hnf
          subst he
          have habs := apiDeleteSA_notFound_absent st (ServiceAccountName config.Team) heq
          simp [hnf, hC, createPhase, hR, fetchAndRecord, apiGetSA, habs]
        · rw [Bool.not_eq_true] at hnf
          simp [hnf]

/-- Witness for C9: a failing read-mode cluster and a successful
revoke-mode cluster both leave the empty aggregate empty. -/
theorem aggregate_atomicity_witness :
    (clusterExec readCfg "a" absentSt NewConfig).2.2 = NewConfig
    ∧ (clusterExec revokeCfg "a" presentSt NewConfig).2.2 = NewConfig :=
  ⟨(aggregate_atomicity readCfg "a" absentSt NewConfig).1 rfl,
   (aggregate_atomicity revokeCfg "a" presentSt NewConfig).2 rfl rfl rfl⟩

/-- Writing the same key twice keeps only the last binding. -/
theorem mapSet_mapSet {α : Type} (m : List (String × α)) (k : String) (v w : α) :
    mapSet (mapSet m k v) k w = mapSet m k w := by
  simp [mapSet, List.filter_filter]

/-- Recording the same entries twice equals recording them once. -/
theorem recordEntries_overwrite (cluster : String) (st : ClusterState)
    (ai : AuthInfo) (userConfig : UserConfig) :
    recordEntries cluster st ai (recordEntries cluster st ai userConfig)
      = recordEntries cluster st ai userConfig := by
  simp [recordEntries, mapSet_mapSet]

/-- Creation against an absent identity succeeds and yields the
post-creation state. -/
theorem apiCreateSA_success (st : ClusterState) (name : String)
    (hcreate : st.createFault = none) (habsent : findSA st name = none) :
    apiCreateSA st name = .ok (createdState st name) := by
  simp [apiCreateSA, hcreate, habsent]

/-- After creation the account is found, referencing its minted
secret. -/
theorem findSA_createdState (st : ClusterState) (name : String) :
    findSA (createdState st name) name
      = some { name := name, secrets := [mintedSecretName name st.nextToken] } := by
  simp [findSA, createdState, List.find?_cons_of_pos]

/-- Creation does not change the injected client fault. -/
theorem createdState_clientFault (st : ClusterState) (name : String) :
    (createdState st name).clientFault = st.clientFault := rfl

/-- Creation does not change the injected creation fault. -/
theorem createdState_createFault (st : ClusterState) (name : String) :
    (createdState st name).createFault = st.createFault := rfl

/-- Fetching the account after creation succeeds. -/
theorem apiGetSA_createdState (st : ClusterState) (name : String) :
    apiGetSA (createdState st name) name
      = .ok { name := name, secrets := [mintedSecretName name st.nextToken] } := by
  simp [apiGetSA, findSA_createdState]

/-- The minted secret is found after creation. -/
theorem findSecret_createdState (st : ClusterState) (name : String) :
    findSecret (createdState st name) (mintedSecretName name st.nextToken)
      = some { name := mintedSecretName name st.nextToken,
               data := [("token", mintedTokenValue st.nextToken)] } := by
  simp [findSecret, createdState, List.find?_cons_of_pos]

/-- The secret-reference step after creation returns the minted
secret. -/
theorem ServiceAccountSecret_createdState (st : ClusterState) (name : String) :
    ServiceAccountSecret (createdState st name)
        { name := name, secrets := [mintedSecretName name st.nextToken] }
      = .ok { name := mintedSecretName name st.nextToken,
              data := [("token", mintedTokenValue st.nextToken)] } := by
  simp [ServiceAccountSecret, apiGetSecret, findSecret_createdState]

/-- The fetch-and-record phase run on a freshly created identity
records the minted token and succeeds. -/
theorem fetchAndRecord_after_create (config : Config) (cluster : String) (st : ClusterState)
    (userConfig : UserConfig) :
    fetchAndRecord config cluster (createdState st (ServiceAccountName config.Team)) userConfig
      = (.ok (), createdState st (ServiceAccountName config.Team),
         recordEntries cluster (createdState st (ServiceAccountName config.Team))
           { token := mintedTokenValue st.nextToken } userConfig) := by
  simp [fetchAndRecord, apiGetSA_createdState, ServiceAccountSecret_createdState,
    mkAuthInfo, List.lookup]

/-- Creating the same identity again reports already-exists. -/
theorem apiCreateSA_createdState (st : ClusterState) (name : String)
    (hcreate : st.createFault = none) :
    apiCreateSA (createdState st name) name = .error .alreadyExists := by
  simp [apiCreateSA, createdState_createFault, hcreate, findSA_createdState]

/-- Claim C5: Create mode is idempotent.  Against a cluster where the
identity is absent (and the control plane injects no fault), the first
Create invocation succeeds, ending in a definite state and aggregate;
invoking Create again from there hits the tolerated already-exists
error, still proceeds to fetch the token, and returns exactly the same
state, aggregate and success — so two invocations are equivalent to
one. -/
theorem create_idempotent (config : Config) (cluster : String) (st : ClusterState)
    (userConfig : UserConfig)
    (hC : config.Create = true) (hR : config.Rotate = false) (hV : config.Revoke = false)
    (hclient : st.clientFault = none) (hcreate : st.createFault = none)
    (habsent : findSA st (ServiceAccountName config.Team) = none) :
    ∃ st1 uc1,
      clusterExec config cluster st userConfig = (.ok (), st1, uc1)
      ∧ clusterExec config cluster st1 uc1 = (.ok (), st1, uc1)
      ∧ uc1.AuthInfos.lookup cluster = some { token := mintedTokenValue st.nextToken } := by
  refine ⟨createdState st (ServiceAccountName config.Team),
    recordEntries cluster (createdState st (ServiceAccountName config.Team))
      { token := mintedTokenValue st.nextToken } userConfig, ?_, ?_, ?_⟩
  · simp [clusterExec, hclient, hR, hV, hC, createPhase,
      apiCreateSA_success st (ServiceAccountName config.Team) hcreate habsent,
      fetchAndRecord_after_create]
  · simp [clusterExec, createdState_clientFault, hclient, hR, hV, hC, createPhase,
      apiCreateSA_createdState st (ServiceAccountName config.Team) hcreate,
      isAlreadyExists, fetchAndRecord_after_create, recordEntries_overwrite]
  · simp [recordEntries, mapSet, List.lookup]

/-- Witness for C5: team `t`, Create mode, against the empty cluster. -/
theorem create_idempotent_witness :
    ∃ st1 uc1,
      clusterExec createCfg "a" absentSt NewConfig = (.ok (), st1, uc1)
      ∧ clusterExec createCfg "a" st1 uc1 = (.ok (), st1, uc1)
      ∧ uc1.AuthInfos.lookup "a" = some { token := mintedTokenValue absentSt.nextToken } :=
  create_idempotent createCfg "a" absentSt NewConfig rfl rfl rfl rfl rfl rfl

/-- Claim C6: when the fetched secret of the identity lacks the
bearer-token field, the reconciliation does not fail: it records an
empty-string credential for the cluster and returns success. -/
theorem missing_token_tolerated (config : Config) (cluster : String) (st : ClusterState)
    (userConfig : UserConfig) (sa : SA) (secret : KSecret) (rest : List String)
    (hR : config.Rotate = false) (hC : config.Create = false) (hV : config.Revoke = false)
    (hclient : st.clientFault = none)
    (hsa : findSA st (ServiceAccountName config.Team) = some sa)
    (href : sa.secrets = secret.name :: rest)
    (hsec : findSecret st secret.name = some secret)
    (htok : secret.data.lookup "token" = none) :
    clusterExec config cluster st userConfig
      = (.ok (), st, recordEntries cluster st { token := "" } userConfig)
    ∧ (recordEntries cluster st { token := "" } userConfig).AuthInfos.lookup cluster
        = some { token := "" } := by
  constructor
  · simp [clusterExec, hclient, hR, hV, hC, createPhase, fetchAndRecord, apiGetSA, hsa,
      ServiceAccountSecret, href, apiGetSecret, hsec, mkAuthInfo, htok]
  · simp [recordEntries, mapSet, List.lookup]

/-- Witness for C6: a read-mode run against the cluster whose secret
has no token field succeeds with the empty credential. -/
theorem missing_token_tolerated_witness :
    clusterExec readCfg "a" tokenlessSt NewConfig
      = (.ok (), tokenlessSt, recordEntries "a" tokenlessSt { token := "" } NewConfig)
    ∧ (recordEntries "a" tokenlessSt { token := "" } NewConfig).AuthInfos.lookup "a"
        = some { token := "" } :=
  missing_token_tolerated readCfg "a" tokenlessSt NewConfig
    { name := "serviceuser-t", secrets := ["serviceuser-t-token-xyz"] }
    { name := "serviceuser-t-token-xyz", data := [("ca.crt", "pem")] } []
    rfl rfl rfl rfl rfl rfl rfl rfl

/-- A map write keeps the keys duplicate-free. -/
theorem mapSet_keys_nodup {α : Type} (m : List (String × α)) (k : String) (v : α)
    (h : (m.map Prod.fst).Nodup) : ((mapSet m k v).map Prod.fst).Nodup := by
  simp only [mapSet, List.map_cons, List.nodup_cons]
  constructor
  · intro hk
    obtain ⟨p, hp, hpk⟩ := List.mem_map.mp hk
    have hfp := List.of_mem_filter hp
    rw [hpk] at hfp
    simp at hfp
  · exact h.sublist ((List.filter_sublist m).map Prod.fst)

/-- The fetch-and-record phase leaves the aggregate untouched or writes
the keyed entries of the processed cluster. -/
theorem fetchAndRecord_shape (config : Config) (cluster : String)
    (st : ClusterState) (userConfig : UserConfig) :
    (fetchAndRecord config cluster st userConfig).2.2 = userConfig
    ∨ ∃ st1 ai, (fetchAndRecord config cluster st userConfig).2.2
        = recordEntries cluster st1 ai userConfig := by
  unfold fetchAndRecord
  split
  · left; rfl
  · split
    · left; rfl
    · right; exact ⟨st, _, rfl⟩

/-- The creation phase leaves the aggregate untouched or writes the
keyed entries of the processed cluster. -/
theorem createPhase_shape (config : Config) (cluster : String) (deleted : Bool)
    (st : ClusterState) (userConfig : UserConfig) :
    (createPhase config cluster deleted st userConfig).2.2 = userConfig
    ∨ ∃ st1 ai, (createPhase config cluster deleted st userConfig).2.2
        = recordEntries cluster st1 ai userConfig := by
  unfold createPhase
  split
  · split
    · split
      · exact fetchAndRecord_shape config cluster _ userConfig
      · left; rfl
    · exact fetchAndRecord_shape config cluster _ userConfig
  · exact fetchAndRecord_shape config cluster st userConfig

/-- Per-cluster reconciliation leaves the aggregate untouched or writes
the keyed entries of the processed cluster. -/
theorem clusterExec_shape (config : Config) (cluster : String)
    (st : ClusterState) (userConfig : UserConfig) :
    (clusterExec config cluster st userConfig).2.2 = userConfig
    ∨ ∃ st1 ai, (clusterExec config cluster st userConfig).2.2
        = recordEntries cluster st1 ai userConfig := by
  unfold clusterExec
  split
  · left; rfl
  · split
    · split
      · split
        · left; rfl
        · exact createPhase_shape config cluster _ _ userConfig
      · split
        · exact createPhase_shape config cluster _ _ userConfig
        · left; rfl
    · exact createPhase_shape config cluster _ _ userConfig

/-- Per-cluster reconciliation keeps the keys of all three aggregate
maps duplicate-free. -/
theorem clusterExec_keys_nodup (config : Config) (cluster : String)
    (st : ClusterState) (userConfig : UserConfig)
    (h1 : (userConfig.AuthInfos.map Prod.fst).Nodup)
    (h2 : (userConfig.Clusters.map Prod.fst).Nodup)
    (h3 : (userConfig.Contexts.map Prod.fst).Nodup) :
    (((clusterExec config cluster st userConfig).2.2).AuthInfos.map Prod.fst).Nodup
    ∧ (((clusterExec config cluster st userConfig).2.2).Clusters.map Prod.fst).Nodup
    ∧ (((clusterExec config cluster st userConfig).2.2).Contexts.map Prod.fst).Nodup := by
  rcases clusterExec_shape config cluster st userConfig with hc | ⟨st1, ai, hc⟩ <;> rw [hc]
  · exact ⟨h1, h2, h3⟩
  · exact ⟨mapSet_keys_nodup _ _ _ h1, mapSet_keys_nodup _ _ _ h2,
      mapSet_keys_nodup _ _ _ h3⟩

/-- The cluster loop keeps the keys of all three aggregate maps
duplicate-free. -/
theorem runLoop_keys_nodup (config : Config) :
    ∀ (clusters : List String) (env : Env) (userConfig : UserConfig) (failed : Bool),
      (userConfig.AuthInfos.map Prod.fst).Nodup →
      (userConfig.Clusters.map Prod.fst).Nodup →
      (userConfig.Contexts.map Prod.fst).Nodup →
      ((runLoop config clusters env userConfig failed).userConfig.AuthInfos.map Prod.fst).Nodup
      ∧ ((runLoop config clusters env userConfig failed).userConfig.Clusters.map Prod.fst).Nodup
      ∧ ((runLoop config clusters env userConfig failed).userConfig.Contexts.map Prod.fst).Nodup := by
  intro clusters
  induction clusters with
  | nil => intro env userConfig failed h1 h2 h3; exact ⟨h1, h2, h3⟩
  | cons c rest ih =>
    intro env userConfig failed h1 h2 h3
    have h := clusterExec_keys_nodup config c (envGet env c) userConfig h1 h2 h3
    simpa [runLoop] using ih _ _ _ h.1 h.2.1 h.2.2

/-- Claim C10: the aggregate is keyed by cluster name — starting from
the empty aggregate, every run of the loop produces maps whose keys are
duplicate-free, one auth info, cluster entry and context per distinct
name; and on the concrete rotate run whose cluster list names `a`
twice, the emitted file holds exactly one entry for `a`, carrying the
token minted by the second occurrence (the later result overwrote the
earlier one). -/
theorem aggregate_keyed_by_cluster_name (config : Config) (env : Env) :
    (((runLoop config config.Clusters env NewConfig false).userConfig.AuthInfos.map Prod.fst).Nodup
      ∧ ((runLoop config config.Clusters env NewConfig false).userConfig.Clusters.map Prod.fst).Nodup
      ∧ ((runLoop config config.Clusters env NewConfig false).userConfig.Contexts.map Prod.fst).Nodup)
    ∧ run dupCfg goodEnv = .ok (some ucDup) := by
  constructor
  · exact runLoop_keys_nodup config config.Clusters env NewConfig false
      (by simp [NewConfig]) (by simp [NewConfig]) (by simp [NewConfig])
  · rfl

end Teamconfig
